import Mathlib

/-!
Verification of the single-instance coordination core of putty-nd
(`src/putty_view/CmdLineHandler.cpp`).

The C++ code elects one Leader process per OS user via named shared
memory (`CreateFileMapping` plus the `ERROR_ALREADY_EXISTS` check), and
runs a one-byte signal protocol guarded by a named mutex: Followers set
byte 0 of the shared region to 1 and exit, the Leader polls the byte on a
timer, clears it under the mutex and invokes the new-session callback.

The embedding below models:
 - the identity sanitization and resource-name construction from the
   constructor (`CmdLineHandler::CmdLineHandler`, lines 17-37);
 - `toBeLeader` (lines 68-101) and an OS-level model of named-region
   creation, for the election claims;
 - `leaderTimerCallback` (lines 105-117) and `sendMsgToLeader`
   (lines 121-138) as functions from the shared buffer to the new buffer
   together with the trace of externally visible events they perform;
 - `handleCmd` (lines 52-65) for the role lifecycle and exit codes;
 - a small interleaving transition system (one Leader, any number of
   Followers, a shared flag and a mutex) whose steps are exactly the
   atomic actions of the two methods, for the temporal claims.
-/

namespace CmdLineHandler

/-- `SHARED_MEM_NAME` from CmdLineHandler.cpp line 14: the fixed base of
the shared-region name. -/
def SHARED_MEM_NAME : String := "PuttySharedMem"

/-- `SHARED_MEM_MUTEX_NAME` from CmdLineHandler.cpp line 15: the fixed
base of the mutex name. -/
def SHARED_MEM_MUTEX_NAME : String := "PuttySharedMemMutex"

/-- Win32 `WAIT_OBJECT_0` (value 0), the only result `sendMsgToLeader`
accepts from its zero-wait `WaitForSingleObject` call (line 131). -/
def WAIT_OBJECT_0 : Nat := 0

/-- Win32 `WAIT_ABANDONED` (value 0x80): returned when the wait succeeds
because the previous owner terminated while holding the mutex. -/
def WAIT_ABANDONED : Nat := 128

/-- The character test of the sanitization loop in the constructor
(lines 27-29): decimal digit, lowercase or uppercase ASCII letter. -/
def isIdChar (c : Char) : Bool :=
  (('0' ≤ c && c ≤ '9') || ('a' ≤ c && c ≤ 'z')) || ('A' ≤ c && c ≤ 'Z')

/-- One iteration of the sanitization loop (line 31): a character failing
`isIdChar` is replaced by an underscore. -/
def sanitizeChar (c : Char) : Char :=
  if isIdChar c then c else '_'

/-- The whole sanitization loop (lines 26-32) applied to the account name
reported by `GetUserNameExA`. -/
def sanitizeUserId (s : String) : String :=
  String.mk (s.data.map sanitizeChar)

/-- `userShareMemName_` as built by the `_snprintf` on line 33:
`"%s_%s"` of `SHARED_MEM_NAME` and the sanitized user id. -/
def userShareMemName (userId : String) : String :=
  SHARED_MEM_NAME ++ "_" ++ sanitizeUserId userId

/-- `userShareMemMutexName_` as built by the `_snprintf` on line 34:
`"%s_%s"` of `SHARED_MEM_MUTEX_NAME` and the sanitized user id. -/
def userShareMemMutexName (userId : String) : String :=
  SHARED_MEM_MUTEX_NAME ++ "_" ++ sanitizeUserId userId

/-- The two role values of the `sharedType_` field (assigned on line 84). -/
inductive SharedType
  | leader
  | follower
deriving DecidableEq, Repr

/-- Externally visible actions of the two protocol methods, in program
order: window lookup and foregrounding (lines 124-127), the unlocked flag
read (line 107), the blocking and the zero-wait mutex waits (lines 112 and
130), flag writes (lines 113 and 135), the new-session callback
(line 114), and mutex release (lines 115 and 136). -/
inductive Event
  | findWindow (found : Bool)
  | bringToForeground
  | readFlagUnlocked (v : Nat)
  | waitBlocking
  | waitZero (result : Nat)
  | setFlag (v : Nat)
  | createNewSession
  | releaseMutex
deriving DecidableEq, Repr

/-- The role decision on line 84: Follower exactly when `GetLastError()`
reported `ERROR_ALREADY_EXISTS`, Leader otherwise. -/
def roleOfCreate (alreadyExists : Bool) : SharedType :=
  if alreadyExists then SharedType.follower else SharedType.leader

/-- `toBeLeader` (lines 68-101) on the successful path: the role is
decided by `roleOfCreate`, and the Leader (and only the Leader) zeroes the
whole mapped buffer with `memset` (lines 97-99). The buffer is the mapped
region of `SHARED_MEM_SIZE` bytes, modelled as a list of bytes of that
length. -/
def toBeLeader (alreadyExists : Bool) (buf : List Nat) : SharedType × List Nat :=
  let t := roleOfCreate alreadyExists
  (t, if t = SharedType.leader then List.replicate buf.length 0 else buf)

/-- `leaderTimerCallback` (lines 105-117): read byte 0 without the lock;
if zero return at once, otherwise wait on the mutex (blocking), write 0 to
byte 0, call `createNewSession`, release the mutex. Returns the new buffer
and the trace of events in program order. -/
def leaderTimerCallback (buf : List Nat) : List Nat × List Event :=
  let v := buf.getD 0 0
  if v = 0 then
    (buf, [Event.readFlagUnlocked v])
  else
    (buf.set 0 0,
     [Event.readFlagUnlocked v, Event.waitBlocking, Event.setFlag 0,
      Event.createNewSession, Event.releaseMutex])

/-- `sendMsgToLeader` (lines 121-138): if the `FindWindowA` lookup by the
fixed title succeeds, bring that window to the foreground and return;
otherwise wait on the mutex with timeout 0 and, unless the result is
exactly `WAIT_OBJECT_0`, return; on `WAIT_OBJECT_0` write 1 to byte 0 and
release the mutex. `windowFound` is the outcome of the lookup and
`waitResult` the value returned by `WaitForSingleObject`. -/
def sendMsgToLeader (windowFound : Bool) (waitResult : Nat) (buf : List Nat) :
    List Nat × List Event :=
  if windowFound then
    (buf, [Event.findWindow true, Event.bringToForeground])
  else if waitResult ≠ WAIT_OBJECT_0 then
    (buf, [Event.findWindow false, Event.waitZero waitResult])
  else
    (buf.set 0 1,
     [Event.findWindow false, Event.waitZero waitResult, Event.setFlag 1,
      Event.releaseMutex])

/-- Outcome of `handleCmd` (lines 52-65): the Leader starts the recurring
timer and keeps running; the Follower calls `sendMsgToLeader` once and
then calls `exit(0)`. -/
inductive HandleOutcome
  | timerStarted
  | exited (code : Int)
deriving DecidableEq, Repr

/-- `handleCmd` (lines 52-65): run `toBeLeader`; a Leader starts the poll
timer, a Follower runs `sendMsgToLeader` once and exits with status 0.
Returns the outcome, the final buffer and the Follower's event trace. -/
def handleCmd (alreadyExists windowFound : Bool) (waitResult : Nat)
    (buf : List Nat) : HandleOutcome × List Nat × List Event :=
  let r := toBeLeader alreadyExists buf
  if r.1 = SharedType.leader then
    (HandleOutcome.timerStarted, r.2, [])
  else
    let m := sendMsgToLeader windowFound waitResult r.2
    (HandleOutcome.exited 0, m.1, m.2)

/-- Process-local state relevant to the role claims: the `sharedType_`
field and the mapped buffer. -/
structure ProcState where
  sharedType_ : SharedType
  buf : List Nat
deriving DecidableEq, Repr

/-- `leaderTimerCallback` as a method on the process state: the method
body (lines 105-117) reads and writes only the shared buffer, never the
`sharedType_` field. -/
def leaderTimerCallbackP (p : ProcState) : ProcState × List Event :=
  let r := leaderTimerCallback p.buf
  ({ p with buf := r.1 }, r.2)

/-- `sendMsgToLeader` as a method on the process state: the method body
(lines 121-138) reads and writes only the shared buffer, never the
`sharedType_` field. -/
def sendMsgToLeaderP (windowFound : Bool) (waitResult : Nat) (p : ProcState) :
    ProcState × List Event :=
  let r := sendMsgToLeader windowFound waitResult p.buf
  ({ p with buf := r.1 }, r.2)

/-- `k` successful Follower signals in a row between two Leader polls:
each one is the locked path of `sendMsgToLeader` with `FindWindowA`
failing and the zero-wait acquisition returning `WAIT_OBJECT_0`. -/
def applyNotifies : Nat → List Nat → List Nat
  | 0, buf => buf
  | k + 1, buf => applyNotifies k (sendMsgToLeader false WAIT_OBJECT_0 buf).1

/-- OS-level model of `CreateFileMapping` on a named region (lines 73-78
together with the `GetLastError` check on line 84): the OS keeps the set
of existing region names; creating a name that exists reports
`ERROR_ALREADY_EXISTS` and leaves the set unchanged, creating a fresh
name reports success and adds it. -/
def createFileMapping (regions : List String) (name : String) :
    Bool × List String :=
  if name ∈ regions then (true, regions) else (false, name :: regions)

/-- A sequence of processes, each running the named-region creation step
of `toBeLeader` against the shared OS state in some serialization order
(the OS serializes creations of the same name). Returns the role assigned
to each process, in order, and the final OS state. -/
def runElection (regions : List String) (names : List String) :
    List SharedType × List String :=
  match names with
  | [] => ([], regions)
  | n :: rest =>
    let c := createFileMapping regions n
    let res := runElection c.2 rest
    (roleOfCreate c.1 :: res.1, res.2)

/-- Number of processes in an election run that used region name `name`
and were assigned Leader by the check on line 84. -/
def leaderCountFor (regions : List String) (names : List String)
    (name : String) : Nat :=
  match names with
  | [] => 0
  | n :: rest =>
    let c := createFileMapping regions n
    (if roleOfCreate c.1 = SharedType.leader ∧ n = name then 1 else 0) +
      leaderCountFor c.2 rest name

/-- Program counter of the Leader's poll inside `leaderTimerCallback`:
`idle` before/after a tick, `waitingLock` after the unlocked read saw a
non-zero flag (line 107), `clearing` after acquiring the mutex
(line 112), `calling` after writing 0 to the flag (line 113), `releasing`
after the callback (line 114) and before `ReleaseMutex` (line 115). -/
inductive LeaderPc
  | idle
  | waitingLock
  | clearing
  | calling
  | releasing
deriving DecidableEq, Repr

/-- Program counter of a Follower inside `sendMsgToLeader` (lock path):
`start` before the zero-wait acquisition (line 130), `inCS` after
acquiring, `releasing` after writing 1 to the flag (line 135) and before
`ReleaseMutex` (line 136), `done` after returning. -/
inductive FollowerPc
  | start
  | inCS
  | releasing
  | done
deriving DecidableEq, Repr

/-- Identity of a mutex holder: the Leader process or Follower number `i`. -/
inductive Holder
  | leaderProc
  | followerProc (i : Nat)
deriving DecidableEq, Repr

/-- Global state of the interleaving model: the flag byte (byte 0 of the
shared region), the current owner of the named mutex (`none` = free), the
Leader's poll program counter, every Follower's program counter, and the
counts of flag clears (line 113) and `createNewSession` callbacks
(line 114) performed by the Leader so far. -/
structure Sys where
  flag : Nat
  owner : Option Holder
  lpc : LeaderPc
  fpc : Nat → FollowerPc
  clearCount : Nat
  cbCount : Nat

/-- Initial state: the Leader has zeroed the region (line 98), the mutex
is free, the Leader is idle between ticks and every Follower is about to
attempt the zero-wait acquisition. -/
def Sys.init : Sys :=
  { flag := 0, owner := none, lpc := LeaderPc.idle,
    fpc := fun _ => FollowerPc.start, clearCount := 0, cbCount := 0 }

/-- One atomic step of some process. Leader steps are the statements of
`leaderTimerCallback` (lines 107-115): the unlocked read returning on 0
or proceeding on non-zero, the blocking `WaitForSingleObject` completing
when the mutex is free, the flag clear, the callback, the release.
Follower steps are the statements of the lock path of `sendMsgToLeader`
(lines 130-136): the zero-wait `WaitForSingleObject` succeeding when the
mutex is free or giving up when it is held, the flag write, the release. -/
inductive Step : Sys → Sys → Prop
  | leaderReadZero (s : Sys) :
      s.lpc = LeaderPc.idle → s.flag = 0 → Step s s
  | leaderReadPending (s : Sys) :
      s.lpc = LeaderPc.idle → s.flag ≠ 0 →
      Step s { s with lpc := LeaderPc.waitingLock }
  | leaderAcquire (s : Sys) :
      s.lpc = LeaderPc.waitingLock → s.owner = none →
      Step s { s with owner := some Holder.leaderProc, lpc := LeaderPc.clearing }
  | leaderClear (s : Sys) :
      s.lpc = LeaderPc.clearing →
      Step s { s with flag := 0, lpc := LeaderPc.calling,
                      clearCount := s.clearCount + 1 }
  | leaderCallback (s : Sys) :
      s.lpc = LeaderPc.calling →
      Step s { s with lpc := LeaderPc.releasing, cbCount := s.cbCount + 1 }
  | leaderRelease (s : Sys) :
      s.lpc = LeaderPc.releasing →
      Step s { s with owner := none, lpc := LeaderPc.idle }
  | followerAcquire (s : Sys) (i : Nat) :
      s.fpc i = FollowerPc.start → s.owner = none →
      Step s { s with owner := some (Holder.followerProc i),
                      fpc := fun j => if j = i then FollowerPc.inCS else s.fpc j }
  | followerGiveUp (s : Sys) (i : Nat) :
      s.fpc i = FollowerPc.start → s.owner ≠ none →
      Step s { s with
                 fpc := fun j => if j = i then FollowerPc.done else s.fpc j }
  | followerWrite (s : Sys) (i : Nat) :
      s.fpc i = FollowerPc.inCS →
      Step s { s with flag := 1,
                      fpc := fun j => if j = i then FollowerPc.releasing else s.fpc j }
  | followerRelease (s : Sys) (i : Nat) :
      s.fpc i = FollowerPc.releasing →
      Step s { s with owner := none,
                      fpc := fun j => if j = i then FollowerPc.done else s.fpc j }

/-- States reachable from the initial state by interleaved steps. -/
def Reachable (s : Sys) : Prop :=
  Relation.ReflTransGen Step Sys.init s

/-- The lock/counter invariant of the protocol: while the Leader is
between its mutex acquisition and its release it owns the mutex; a
Follower between its acquisition and its release owns the mutex; and
every flag clear is matched by a callback, except the one whose callback
is the Leader's very next statement. -/
def Inv (s : Sys) : Prop :=
  (s.lpc = LeaderPc.clearing ∨ s.lpc = LeaderPc.calling ∨
     s.lpc = LeaderPc.releasing → s.owner = some Holder.leaderProc) ∧
  (∀ i, s.fpc i = FollowerPc.inCS ∨ s.fpc i = FollowerPc.releasing →
     s.owner = some (Holder.followerProc i)) ∧
  s.clearCount = s.cbCount + (if s.lpc = LeaderPc.calling then 1 else 0)

lemma inv_init : Inv Sys.init := by
  refine ⟨?_, ?_, ?_⟩
  · intro h
    rcases h with h | h | h <;> simp [Sys.init] at h
  · intro i h
    rcases h with h | h <;> simp [Sys.init] at h
  · simp [Sys.init]

lemma inv_step {s s' : Sys} (hinv : Inv s) (h : Step s s') : Inv s' := by
  obtain ⟨h1, h2, h3⟩ := hinv
  cases h with
  | leaderReadZero hl hf => exact ⟨h1, h2, h3⟩
  | leaderReadPending hl hf =>
    refine ⟨?_, h2, ?_⟩
    · intro hc
      rcases hc with hc | hc | hc <;> simp at hc
    · rw [hl] at h3
      simpa using h3
  | leaderAcquire hl ho =>
    refine ⟨fun _ => rfl, ?_, ?_⟩
    · intro i hi
      have ha := h2 i hi
      rw [ho] at ha
      cases ha
    · rw [hl] at h3
      simpa using h3
  | leaderClear hl =>
    refine ⟨fun _ => h1 (Or.inl hl), ?_, ?_⟩
    · intro i hi
      have ha := h2 i hi
      have hb := h1 (Or.inl hl)
      rw [hb] at ha
      simp at ha
    · rw [hl] at h3
      simp at h3
      simp [h3]
  | leaderCallback hl =>
    refine ⟨fun _ => h1 (Or.inr (Or.inl hl)), h2, ?_⟩
    · rw [hl] at h3
      simp at h3
      simp [h3]
  | leaderRelease hl =>
    refine ⟨?_, ?_, ?_⟩
    · intro hc
      rcases hc with hc | hc | hc <;> simp at hc
    · intro i hi
      have ha := h2 i hi
      have hb := h1 (Or.inr (Or.inr hl))
      rw [hb] at ha
      simp at ha
    · rw [hl] at h3
      simpa using h3
  | followerAcquire i hi ho =>
    refine ⟨?_, ?_, h3⟩
    · intro hc
      have hb := h1 hc
      rw [ho] at hb
      cases hb
    · intro j hj
      by_cases hji : j = i
      · subst hji
        rfl
      · simp [hji] at hj
        have ha := h2 j hj
        rw [ho] at ha
        cases ha
  | followerGiveUp i hi ho =>
    refine ⟨h1, ?_, h3⟩
    · intro j hj
      by_cases hji : j = i
      · subst hji
        simp at hj
      · simp [hji] at hj
        exact h2 j hj
  | followerWrite i hi =>
    refine ⟨h1, ?_, h3⟩
    · intro j hj
      by_cases hji : j = i
      · subst hji
        exact h2 j (Or.inl hi)
      · simp [hji] at hj
        exact h2 j hj
  | followerRelease i hi =>
    refine ⟨?_, ?_, h3⟩
    · intro hc
      have hb := h1 hc
      have ha := h2 i (Or.inr hi)
      rw [hb] at ha
      simp at ha
    · intro j hj
      by_cases hji : j = i
      · subst hji
        simp at hj
      · simp [hji] at hj
        have ha := h2 j hj
        have hb := h2 i (Or.inr hi)
        rw [hb] at ha
        simp at ha
        exact absurd ha.symm hji

lemma reachable_inv {s : Sys} (h : Reachable s) : Inv s := by
  induction h with
  | refl => exact inv_init
  | tail hab hbc ih => exact inv_step ih hbc

lemma runElection_replicate_of_mem (k : Nat) :
    ∀ (regions : List String) (name : String), name ∈ regions →
      (runElection regions (List.replicate k name)).1 =
        List.replicate k SharedType.follower := by
  induction k with
  | zero => intro regions name h; simp [runElection]
  | succ k ih =>
    intro regions name h
    simp [List.replicate_succ, runElection, createFileMapping, h,
          roleOfCreate, ih regions name h]

lemma leaderCountFor_of_mem (names : List String) :
    ∀ (regs : List String) (nm : String), nm ∈ regs →
      leaderCountFor regs names nm = 0 := by
  induction names with
  | nil => intro regs nm h; rfl
  | cons n rest ih =>
    intro regs nm h
    by_cases hn : n ∈ regs
    · simp [leaderCountFor, createFileMapping, hn, roleOfCreate]
      exact ih regs nm h
    · have hne : n ≠ nm := fun he => hn (he ▸ h)
      simp [leaderCountFor, createFileMapping, hn, hne]
      exact ih (n :: regs) nm (List.mem_cons_of_mem n h)

lemma leaderCountFor_le_one (names : List String) :
    ∀ (regs : List String) (nm : String), leaderCountFor regs names nm ≤ 1 := by
  induction names with
  | nil => intro regs nm; exact Nat.zero_le 1
  | cons n rest ih =>
    intro regs nm
    by_cases hn : n ∈ regs
    · simp [leaderCountFor, createFileMapping, hn, roleOfCreate]
      exact ih regs nm
    · by_cases hnm : n = nm
      · subst hnm
        have h0 : leaderCountFor (n :: regs) rest n = 0 :=
          leaderCountFor_of_mem rest (n :: regs) n (List.mem_cons_self n regs)
        simp [leaderCountFor, createFileMapping, hn, roleOfCreate, h0]
      · simp [leaderCountFor, createFileMapping, hn, hnm]
        exact ih (n :: regs) nm

lemma runElection_replicate_not_mem (regions : List String) (name : String)
    (k : Nat) (h : name ∉ regions) :
    (runElection regions (List.replicate (k + 1) name)).1 =
      SharedType.leader :: List.replicate k SharedType.follower := by
  simp [List.replicate_succ, runElection, createFileMapping, h, roleOfCreate,
        runElection_replicate_of_mem k (name :: regions) name
          (List.mem_cons_self name regions)]

lemma set_head_getD (buf : List Nat) (v : Nat) (h : 0 < buf.length) :
    (buf.set 0 v).getD 0 0 = v := by
  cases buf with
  | nil => simp at h
  | cons a t => rfl

lemma sendMsgToLeader_success_buf (buf : List Nat) :
    (sendMsgToLeader false WAIT_OBJECT_0 buf).1 = buf.set 0 1 := by
  simp [sendMsgToLeader]

lemma applyNotifies_length (k : Nat) :
    ∀ buf : List Nat, (applyNotifies k buf).length = buf.length := by
  induction k with
  | zero => intro buf; rfl
  | succ k ih =>
    intro buf
    show (applyNotifies k (sendMsgToLeader false WAIT_OBJECT_0 buf).1).length = _
    rw [ih, sendMsgToLeader_success_buf, List.length_set]

lemma applyNotifies_flag_one (k : Nat) :
    ∀ buf : List Nat, 0 < buf.length → buf.getD 0 0 = 1 →
      (applyNotifies k buf).getD 0 0 = 1 := by
  induction k with
  | zero => intro buf _ h1; exact h1
  | succ k ih =>
    intro buf hb h1
    show (applyNotifies k (sendMsgToLeader false WAIT_OBJECT_0 buf).1).getD 0 0 = 1
    rw [sendMsgToLeader_success_buf]
    exact ih (buf.set 0 1) (by simpa using hb) (set_head_getD buf 1 hb)

/-- C1: for `n ≥ 2` processes started concurrently with the same user
identity (hence the same region name, not yet existing), the named-region
creation step of `toBeLeader` assigns Leader to exactly one process and
Follower to the other `n - 1`, in every serialization order of the
creations; moreover, for every initial OS state, every sequence of
processes and every region name, at most one process is ever assigned
Leader for that name. -/
theorem toBeLeader_elects_exactly_one_leader (regions : List String)
    (name : String) (n : Nat) (h : name ∉ regions) (hn : 2 ≤ n) :
    (((runElection regions (List.replicate n name)).1).count SharedType.leader = 1 ∧
     ((runElection regions (List.replicate n name)).1).count SharedType.follower = n - 1) ∧
    (∀ (regs names : List String) (nm : String),
       leaderCountFor regs names nm ≤ 1) := by
  obtain ⟨m, rfl⟩ : ∃ m, n = m + 1 := ⟨n - 1, by omega⟩
  rw [runElection_replicate_not_mem regions name m h]
  refine ⟨⟨?_, ?_⟩, fun regs names nm => leaderCountFor_le_one names regs nm⟩
  · simp [List.count_cons, List.count_replicate]
  · simp [List.count_cons, List.count_replicate]

theorem toBeLeader_elects_exactly_one_leader_witness :
    (((runElection [] (List.replicate 2 "PuttySharedMem_alice")).1).count
        SharedType.leader = 1 ∧
     ((runElection [] (List.replicate 2 "PuttySharedMem_alice")).1).count
        SharedType.follower = 2 - 1) ∧
    (∀ (regs names : List String) (nm : String),
       leaderCountFor regs names nm ≤ 1) :=
  toBeLeader_elects_exactly_one_leader [] "PuttySharedMem_alice" 2
    (by simp) (by norm_num)

/-- C2: `leaderTimerCallback` first reads the flag byte without the lock;
if it is zero it returns at once having performed no lock operation and no
write; if it is non-zero it waits on the mutex (blocking), writes 0 to the
flag, invokes `createNewSession`, then releases the mutex, in exactly that
order. -/
theorem leaderTimerCallback_poll_protocol (buf : List Nat) :
    (buf.getD 0 0 = 0 →
       leaderTimerCallback buf = (buf, [Event.readFlagUnlocked 0])) ∧
    (buf.getD 0 0 ≠ 0 →
       leaderTimerCallback buf =
         (buf.set 0 0,
          [Event.readFlagUnlocked (buf.getD 0 0), Event.waitBlocking,
           Event.setFlag 0, Event.createNewSession, Event.releaseMutex])) := by
  constructor
  · intro h
    simp only [leaderTimerCallback]
    rw [h]
    simp
  · intro h
    simp only [leaderTimerCallback]
    rw [if_neg h]

theorem leaderTimerCallback_poll_protocol_witness :
    leaderTimerCallback [0, 5] = ([0, 5], [Event.readFlagUnlocked 0]) ∧
    leaderTimerCallback [1, 5] =
      ([1, 5].set 0 0,
       [Event.readFlagUnlocked 1, Event.waitBlocking, Event.setFlag 0,
        Event.createNewSession, Event.releaseMutex]) :=
  ⟨(leaderTimerCallback_poll_protocol [0, 5]).1 rfl,
   (leaderTimerCallback_poll_protocol [1, 5]).2 (by decide)⟩

/-- C3: in every interleaving of the Leader's poll with any number of
Followers, the flag goes 0 to 1 only on a step taken while a Follower
owns the mutex, and 1 to 0 only on a step taken while the Leader owns it;
and after every step each flag clear is matched by a `createNewSession`
callback, except the one whose callback is the Leader's very next
statement (the clearing step itself leaves the Leader at the `calling`
program point), so a clear without the callback never occurs. -/
theorem flag_transitions_only_under_lock (s s' : Sys)
    (hr : Reachable s) (hstep : Step s s') :
    (s.flag = 0 → s'.flag = 1 →
       ∃ i, s.owner = some (Holder.followerProc i)) ∧
    (s.flag ≠ 0 → s'.flag = 0 →
       s.owner = some Holder.leaderProc ∧ s'.lpc = LeaderPc.calling) ∧
    s'.clearCount = s'.cbCount +
      (if s'.lpc = LeaderPc.calling then 1 else 0) := by
  obtain ⟨h1, h2, h3⟩ := reachable_inv hr
  have hinv' := inv_step ⟨h1, h2, h3⟩ hstep
  refine ⟨?_, ?_, hinv'.2.2⟩
  · cases hstep with
    | leaderReadZero hl hf => intro h0 h1'; omega
    | leaderReadPending hl hf => intro h0 h1'; simp at h1'; omega
    | leaderAcquire hl ho => intro h0 h1'; simp at h1'; omega
    | leaderClear hl => intro h0 h1'; simp at h1'
    | leaderCallback hl => intro h0 h1'; simp at h1'; omega
    | leaderRelease hl => intro h0 h1'; simp at h1'; omega
    | followerAcquire i hi ho => intro h0 h1'; simp at h1'; omega
    | followerGiveUp i hi ho => intro h0 h1'; simp at h1'; omega
    | followerWrite i hi => intro _ _; exact ⟨i, h2 i (Or.inl hi)⟩
    | followerRelease i hi => intro h0 h1'; simp at h1'; omega
  · cases hstep with
    | leaderReadZero hl hf => intro hne h0'; exact absurd h0' hne
    | leaderReadPending hl hf => intro hne h0'; simp at h0'; exact absurd h0' hne
    | leaderAcquire hl ho => intro hne h0'; simp at h0'; exact absurd h0' hne
    | leaderClear hl => intro hne _; exact ⟨h1 (Or.inl hl), rfl⟩
    | leaderCallback hl => intro hne h0'; simp at h0'; exact absurd h0' hne
    | leaderRelease hl => intro hne h0'; simp at h0'; exact absurd h0' hne
    | followerAcquire i hi ho => intro hne h0'; simp at h0'; exact absurd h0' hne
    | followerGiveUp i hi ho => intro hne h0'; simp at h0'; exact absurd h0' hne
    | followerWrite i hi => intro hne h0'; simp at h0'
    | followerRelease i hi => intro hne h0'; simp at h0'; exact absurd h0' hne

theorem flag_transitions_only_under_lock_witness :
    (Sys.init.flag = 0 → Sys.init.flag = 1 →
       ∃ i, Sys.init.owner = some (Holder.followerProc i)) ∧
    (Sys.init.flag ≠ 0 → Sys.init.flag = 0 →
       Sys.init.owner = some Holder.leaderProc ∧
         Sys.init.lpc = LeaderPc.calling) ∧
    Sys.init.clearCount = Sys.init.cbCount +
      (if Sys.init.lpc = LeaderPc.calling then 1 else 0) :=
  flag_transitions_only_under_lock Sys.init Sys.init
    Relation.ReflTransGen.refl (Step.leaderReadZero Sys.init rfl rfl)

/-- C4: after any positive number `k` of successful Follower signals
since the last poll, the flag reads 1 (signals coalesce into one pending
byte), and the Leader's next poll invokes `createNewSession` exactly once
and leaves the flag at 0. -/
theorem follower_signals_coalesce (k : Nat) (buf : List Nat)
    (hk : 1 ≤ k) (hb : 0 < buf.length) :
    (applyNotifies k buf).getD 0 0 = 1 ∧
    ((leaderTimerCallback (applyNotifies k buf)).2).count
        Event.createNewSession = 1 ∧
    ((leaderTimerCallback (applyNotifies k buf)).1).getD 0 0 = 0 := by
  obtain ⟨m, rfl⟩ : ∃ m, k = m + 1 := ⟨k - 1, by omega⟩
  have h1 : (applyNotifies (m + 1) buf).getD 0 0 = 1 := by
    show (applyNotifies m (sendMsgToLeader false WAIT_OBJECT_0 buf).1).getD 0 0 = 1
    rw [sendMsgToLeader_success_buf]
    exact applyNotifies_flag_one m (buf.set 0 1) (by simpa using hb)
      (set_head_getD buf 1 hb)
  refine ⟨h1, ?_, ?_⟩
  · have h2 : (leaderTimerCallback (applyNotifies (m + 1) buf)).2 =
        [Event.readFlagUnlocked 1, Event.waitBlocking, Event.setFlag 0,
         Event.createNewSession, Event.releaseMutex] := by
      simp only [leaderTimerCallback]
      rw [h1]
      simp
    rw [h2]
    decide
  · have h3 : (leaderTimerCallback (applyNotifies (m + 1) buf)).1 =
        (applyNotifies (m + 1) buf).set 0 0 := by
      simp only [leaderTimerCallback]
      rw [h1]
      simp
    rw [h3]
    exact set_head_getD _ 0 (by rw [applyNotifies_length]; exact hb)

theorem follower_signals_coalesce_witness :
    (applyNotifies 2 [0, 7]).getD 0 0 = 1 ∧
    ((leaderTimerCallback (applyNotifies 2 [0, 7])).2).count
        Event.createNewSession = 1 ∧
    ((leaderTimerCallback (applyNotifies 2 [0, 7])).1).getD 0 0 = 0 :=
  follower_signals_coalesce 2 [0, 7] (by decide) (by decide)

/-- C5: `toBeLeader` assigns Follower exactly when the creation call
reported `ERROR_ALREADY_EXISTS` and Leader otherwise; and neither of the
two later operations (`leaderTimerCallback`, `sendMsgToLeader`) ever
changes the `sharedType_` field, so the role assigned at start never
changes. -/
theorem toBeLeader_role_assignment (b : Bool) (buf : List Nat)
    (p : ProcState) (wf : Bool) (w : Nat) :
    ((toBeLeader b buf).1 = SharedType.follower ↔ b = true) ∧
    ((toBeLeader b buf).1 = SharedType.leader ↔ b = false) ∧
    (leaderTimerCallbackP p).1.sharedType_ = p.sharedType_ ∧
    (sendMsgToLeaderP wf w p).1.sharedType_ = p.sharedType_ := by
  refine ⟨?_, ?_, rfl, rfl⟩ <;> cases b <;> simp [toBeLeader, roleOfCreate]

/-- C6: when the window lookup fails and the zero-wait acquisition does
not return `WAIT_OBJECT_0`, `sendMsgToLeader` returns with the buffer
completely unchanged, having performed no write and no release, and the
Follower path of `handleCmd` still exits with status 0. -/
theorem sendMsgToLeader_lock_failure_silent (w : Nat) (buf : List Nat)
    (hw : w ≠ WAIT_OBJECT_0) :
    sendMsgToLeader false w buf =
      (buf, [Event.findWindow false, Event.waitZero w]) ∧
    handleCmd true false w buf =
      (HandleOutcome.exited 0, buf,
       [Event.findWindow false, Event.waitZero w]) := by
  constructor
  · simp [sendMsgToLeader, hw]
  · simp [handleCmd, toBeLeader, roleOfCreate, sendMsgToLeader, hw]

theorem sendMsgToLeader_lock_failure_silent_witness :
    sendMsgToLeader false 258 [0, 3] =
      ([0, 3], [Event.findWindow false, Event.waitZero 258]) ∧
    handleCmd true false 258 [0, 3] =
      (HandleOutcome.exited 0, [0, 3],
       [Event.findWindow false, Event.waitZero 258]) :=
  sendMsgToLeader_lock_failure_silent 258 [0, 3] (by decide)

/-- C7: when the window lookup by the fixed title succeeds,
`sendMsgToLeader` brings that window to the foreground and returns with
the buffer unchanged, performing no wait, no flag access and no release. -/
theorem sendMsgToLeader_window_fast_path (w : Nat) (buf : List Nat) :
    sendMsgToLeader true w buf =
      (buf, [Event.findWindow true, Event.bringToForeground]) := by
  simp [sendMsgToLeader]

/-- C8: only the Leader zero-initializes the region — `toBeLeader` leaves
the buffer untouched for a Follower and replaces it with zeros for the
Leader — and `sendMsgToLeader` (every Follower operation) leaves every
byte at offset greater than 0 unchanged, on all of its paths. -/
theorem follower_writes_only_offset_zero (b wf : Bool) (w : Nat)
    (buf : List Nat) (j : Nat) (hj : 0 < j) :
    ((toBeLeader b buf).2 =
       if b then buf else List.replicate buf.length 0) ∧
    ((sendMsgToLeader wf w buf).1)[j]? = buf[j]? := by
  constructor
  · cases b <;> simp [toBeLeader, roleOfCreate]
  · unfold sendMsgToLeader
    split
    · rfl
    · split
      · rfl
      · exact List.getElem?_set_ne (by omega)

theorem follower_writes_only_offset_zero_witness :
    ((toBeLeader true [5, 6]).2 =
       if true then [5, 6] else List.replicate ([5, 6] : List Nat).length 0) ∧
    ((sendMsgToLeader false 0 [5, 6]).1)[1]? = ([5, 6] : List Nat)[1]? :=
  follower_writes_only_offset_zero true false 0 [5, 6] 1 (by decide)

/-- C9: for every non-empty account name, every character of the
sanitized identity is alphanumeric or an underscore (and the identity is
non-empty), and the two resource names are exactly the fixed bases
`SHARED_MEM_NAME` and `SHARED_MEM_MUTEX_NAME` — two distinct strings —
joined to the sanitized identity by an underscore. -/
theorem identity_sanitization_and_names (s : String) (hs : s ≠ "") :
    (∀ c ∈ (sanitizeUserId s).data, isIdChar c = true ∨ c = '_') ∧
    sanitizeUserId s ≠ "" ∧
    userShareMemName s = SHARED_MEM_NAME ++ "_" ++ sanitizeUserId s ∧
    userShareMemMutexName s = SHARED_MEM_MUTEX_NAME ++ "_" ++ sanitizeUserId s ∧
    SHARED_MEM_NAME ≠ SHARED_MEM_MUTEX_NAME := by
  refine ⟨?_, ?_, rfl, rfl, by decide⟩
  · intro c hc
    simp only [sanitizeUserId] at hc
    obtain ⟨a, ha, rfl⟩ := List.mem_map.mp hc
    by_cases h : isIdChar a <;> simp [sanitizeChar, h]
  · intro h
    apply hs
    have hd : s.data.map sanitizeChar = [] := congrArg String.data h
    rw [List.map_eq_nil_iff] at hd
    cases s
    simp_all

theorem identity_sanitization_and_names_witness :
    (∀ c ∈ (sanitizeUserId "DOMAIN\\john doe").data,
       isIdChar c = true ∨ c = '_') ∧
    sanitizeUserId "DOMAIN\\john doe" ≠ "" ∧
    userShareMemName "DOMAIN\\john doe" =
      SHARED_MEM_NAME ++ "_" ++ sanitizeUserId "DOMAIN\\john doe" ∧
    userShareMemMutexName "DOMAIN\\john doe" =
      SHARED_MEM_MUTEX_NAME ++ "_" ++ sanitizeUserId "DOMAIN\\john doe" ∧
    SHARED_MEM_NAME ≠ SHARED_MEM_MUTEX_NAME :=
  identity_sanitization_and_names "DOMAIN\\john doe" (by decide)

/-- C10: on the lock path, `sendMsgToLeader` writes the flag and releases
the mutex exactly when the zero-wait acquisition returned `WAIT_OBJECT_0`;
for every other result — `WAIT_ABANDONED` included, where the caller in
fact owns the mutex — it returns with the buffer unchanged, writing
nothing and releasing nothing. -/
theorem sendMsgToLeader_requires_wait_object_0 (w : Nat) (buf : List Nat) :
    (Event.setFlag 1 ∈ (sendMsgToLeader false w buf).2 ↔ w = WAIT_OBJECT_0) ∧
    (Event.releaseMutex ∈ (sendMsgToLeader false w buf).2 ↔ w = WAIT_OBJECT_0) ∧
    sendMsgToLeader false WAIT_ABANDONED buf =
      (buf, [Event.findWindow false, Event.waitZero WAIT_ABANDONED]) := by
  refine ⟨?_, ?_, ?_⟩
  · by_cases hw : w = WAIT_OBJECT_0 <;> simp [sendMsgToLeader, hw]
  · by_cases hw : w = WAIT_OBJECT_0 <;> simp [sendMsgToLeader, hw]
  · simp [sendMsgToLeader, WAIT_ABANDONED, WAIT_OBJECT_0]

end CmdLineHandler
